import Mathlib

/-!
Verification development for the `notif` realtime push-notification server.

The Rust sources are shallowly embedded: strings are modelled as lists of
bytes (`List Nat`, each entry < 256, matching Rust's UTF-8 `String`),
fallible operations return `Except`, and the stateful WebSocket session and
channel hub are modelled as explicit state-passing step functions that emit
effect traces.  HMAC-SHA256 (from the `hmac`/`sha2` crates used by
`services/auth.rs`) is implemented concretely so that signatures can be
evaluated on concrete inputs.
-/

namespace Notif

/-- Bytes of an ASCII string literal, used to write concrete byte strings.
For the ASCII inputs appearing in this development this agrees with Rust's
UTF-8 encoding. -/
def ascii (s : String) : List Nat := s.toList.map Char.toNat

/-! ### SHA-256 (FIPS 180-4), over byte lists

`services/auth.rs` delegates to the `sha2`/`hmac` crates; the algorithm is
reproduced here so digests are computable inside Lean.  All words are `Nat`
reduced modulo `2 ^ 32`. -/

/-- 32-bit rotate right (input assumed < 2^32). -/
def rotr (n x : Nat) : Nat := ((x >>> n) ||| (x <<< (32 - n))) % 2 ^ 32

/-- SHA-256 small sigma 0. -/
def ssig0 (x : Nat) : Nat := rotr 7 x ^^^ rotr 18 x ^^^ (x >>> 3)

/-- SHA-256 small sigma 1. -/
def ssig1 (x : Nat) : Nat := rotr 17 x ^^^ rotr 19 x ^^^ (x >>> 10)

/-- SHA-256 big sigma 0. -/
def bsig0 (x : Nat) : Nat := rotr 2 x ^^^ rotr 13 x ^^^ rotr 22 x

/-- SHA-256 big sigma 1. -/
def bsig1 (x : Nat) : Nat := rotr 6 x ^^^ rotr 11 x ^^^ rotr 25 x

/-- SHA-256 choice function. -/
def chF (e f g : Nat) : Nat := (e &&& f) ^^^ ((e ^^^ 0xffffffff) &&& g)

/-- SHA-256 majority function. -/
def majF (a b c : Nat) : Nat := (a &&& b) ^^^ (a &&& c) ^^^ (b &&& c)

/-- The 64 SHA-256 round constants of FIPS 180-4 (fractional cube-root bits
of the first 64 primes), written in decimal. -/
def sha256K : List Nat :=
  [1116352408, 1899447441, 3049323471, 3921009573, 961987163,
   1508970993, 2453635748, 2870763221, 3624381080, 310598401,
   607225278, 1426881987, 1925078388, 2162078206, 2614888103,
   3248222580, 3835390401, 4022224774, 264347078, 604807628,
   770255983, 1249150122, 1555081692, 1996064986, 2554220882,
   2821834349, 2952996808, 3210313671, 3336571891, 3584528711,
   113926993, 338241895, 666307205, 773529912, 1294757372,
   1396182291, 1695183700, 1986661051, 2177026350, 2456956037,
   2730485921, 2820302411, 3259730800, 3345764771, 3516065817,
   3600352804, 4094571909, 275423344, 430227734, 506948616,
   659060556, 883997877, 958139571, 1322822218, 1537002063,
   1747873779, 1955562222, 2024104815, 2227730452, 2361852424,
   2428436474, 2756734187, 3204031479, 3329325298]

/-- SHA-256 initial hash state (a..h), the FIPS 180-4 square-root constants
in decimal. -/
def sha256Init : List Nat :=
  [1779033703, 3144134277, 1013904242, 2773480762,
   1359893119, 2600822924, 528734635, 1541459225]

/-- Big-endian 8-byte encoding of a natural number (mod 2^64). -/
def be64 (n : Nat) : List Nat :=
  [(n >>> 56) % 256, (n >>> 48) % 256, (n >>> 40) % 256, (n >>> 32) % 256,
   (n >>> 24) % 256, (n >>> 16) % 256, (n >>> 8) % 256, n % 256]

/-- SHA-256 padding: append 0x80, zeros to 56 mod 64, then the bit length. -/
def padMsg (msg : List Nat) : List Nat :=
  let L := msg.length
  let k := (55 + 64 - L % 64) % 64
  msg ++ [0x80] ++ List.replicate k 0 ++ be64 (L * 8)

/-- Group bytes into big-endian 32-bit words (length must be a multiple of 4). -/
def bytesToWords : List Nat → List Nat
  | a :: b :: c :: d :: rest => (((a * 256 + b) * 256 + c) * 256 + d) :: bytesToWords rest
  | _ => []

/-- Big-endian 4-byte encoding of a 32-bit word. -/
def wordToBytes (w : Nat) : List Nat :=
  [(w >>> 24) % 256, (w >>> 16) % 256, (w >>> 8) % 256, w % 256]

/-- Split a word list into 16-word blocks. -/
def blocks (ws : List Nat) : List (List Nat) :=
  (List.range (ws.length / 16)).map (fun i => ((ws.drop (16 * i)).take 16))

/-- Message-schedule expansion of a 16-word block to 64 words. -/
def schedule (block : List Nat) : List Nat :=
  (List.range 48).foldl
    (fun w _ =>
      let n := w.length
      w ++ [(ssig1 (w.getD (n - 2) 0) + w.getD (n - 7) 0 +
             ssig0 (w.getD (n - 15) 0) + w.getD (n - 16) 0) % 2 ^ 32])
    block

/-- One SHA-256 round: the state is the 8-word list (a..h), `kw` the round
constant paired with the schedule word. -/
def sha256Round (st : List Nat) (kw : Nat × Nat) : List Nat :=
  let a := st.getD 0 0
  let b := st.getD 1 0
  let c := st.getD 2 0
  let d := st.getD 3 0
  let e := st.getD 4 0
  let f := st.getD 5 0
  let g := st.getD 6 0
  let h := st.getD 7 0
  let t1 := (h + bsig1 e + chF e f g + kw.1 + kw.2) % 2 ^ 32
  let t2 := (bsig0 a + majF a b c) % 2 ^ 32
  [(t1 + t2) % 2 ^ 32, a, b, c, (d + t1) % 2 ^ 32, e, f, g]

/-- SHA-256 compression of one block into the running hash state. -/
def compress (st : List Nat) (block : List Nat) : List Nat :=
  let ws := schedule block
  let en := (sha256K.zip ws).foldl sha256Round st
  (st.zip en).map (fun p => (p.1 + p.2) % 2 ^ 32)

/-- SHA-256 digest of a byte list, as a 32-byte list. -/
def sha256 (msg : List Nat) : List Nat :=
  let final := (blocks (bytesToWords (padMsg msg))).foldl compress sha256Init
  final.foldr (fun w acc => wordToBytes w ++ acc) []

/-! ### HMAC-SHA256 and lowercase hex encoding -/

/-- HMAC-SHA256 (RFC 2104) with a 64-byte block size. -/
def hmacSha256 (key msg : List Nat) : List Nat :=
  let key1 := if 64 < key.length then sha256 key else key
  let key0 := key1 ++ List.replicate (64 - key1.length) 0
  let ipad := key0.map (fun b => b ^^^ 0x36)
  let opad := key0.map (fun b => b ^^^ 0x5c)
  sha256 (opad ++ sha256 (ipad ++ msg))

/-- One lowercase hex digit (0-15) as an ASCII byte. -/
def hexDigit (n : Nat) : Nat := if n < 10 then 48 + n else 87 + n

/-- Lowercase hex encoding of a byte list, as `hex::encode` produces. -/
def hexEncode (bytes : List Nat) : List Nat :=
  bytes.foldr (fun b acc => hexDigit (b / 16) :: hexDigit (b % 16) :: acc) []

/-! ### Channel classification (`models/channel.rs`) -/

/-- Rust `str::starts_with` at the byte level: `pat` is a prefix of `s`. -/
def starts_with (s pat : List Nat) : Bool := pat.isPrefixOf s

/-- Channel type based on prefix (`ChannelType` in `models/channel.rs`). -/
inductive ChannelType
  | Public
  | Private
  | Presence
deriving DecidableEq, Repr

/-- Derive channel type from name (`ChannelType::from_name`). -/
def ChannelType.from_name (name : List Nat) : ChannelType :=
  if starts_with name (ascii "presence-") then ChannelType.Presence
  else if starts_with name (ascii "private-") then ChannelType.Private
  else ChannelType.Public

/-- True on Private and Presence channels (`ChannelType::is_private`). -/
def ChannelType.is_private : ChannelType → Bool
  | ChannelType.Private => true
  | ChannelType.Presence => true
  | ChannelType.Public => false

/-! ### Channel auth (`services/auth.rs`) -/

/-- The error variants reachable from the auth service (`error/mod.rs`,
restricted to the constructors `verify_channel_auth` and `sign_channel`
produce). -/
inductive AppError
  | Auth (msg : List Nat)
  | Internal (msg : List Nat)
deriving DecidableEq, Repr

/-- The byte string of a single colon, the separator of the signing payload. -/
def colon : List Nat := [58]

/-- The two bytes of the literal braces string that `sign_channel` substitutes
for a missing presence `channel_data` (written as bytes 123, 125). -/
def emptyObj : List Nat := [123, 125]

/-- `AuthService::verify_channel_auth`.  The HMAC construction from the `hmac`
crate accepts keys of any length, so the `new_from_slice` failure branch of the
source is unreachable and the happy path is modelled directly. -/
def verify_channel_auth (app_secret channel socket_id : List Nat)
    (auth : Option (List Nat)) (channel_data : Option (List Nat)) :
    Except AppError Unit :=
  let channel_type := ChannelType.from_name channel
  if !channel_type.is_private then Except.ok ()
  else
    match auth with
    | none => Except.error (AppError.Auth (ascii "missing auth for private/presence channel"))
    | some a =>
      let sign_payload :=
        if channel_type = ChannelType.Presence then
          socket_id ++ colon ++ channel ++ colon ++ channel_data.getD []
        else
          socket_id ++ colon ++ channel
      let expected := hexEncode (hmacSha256 app_secret sign_payload)
      if a = expected then Except.ok ()
      else Except.error (AppError.Auth (ascii "invalid auth signature"))

/-- `AuthService::sign_channel`: note the missing-`channel_data` default is the
literal `\x7b\x7d` string, unlike `verify_channel_auth`'s empty string. -/
def sign_channel (app_secret socket_id channel : List Nat)
    (channel_data : Option (List Nat)) : Except AppError (List Nat) :=
  let channel_type := ChannelType.from_name channel
  let sign_payload :=
    if channel_type = ChannelType.Presence then
      socket_id ++ colon ++ channel ++ colon ++ channel_data.getD emptyObj
    else
      socket_id ++ colon ++ channel
  Except.ok (hexEncode (hmacSha256 app_secret sign_payload))

/-- The digest `verify_channel_auth` compares the supplied auth against
(missing presence `channel_data` defaults to the empty string). -/
def expected_digest (app_secret channel socket_id : List Nat)
    (channel_data : Option (List Nat)) : List Nat :=
  hexEncode (hmacSha256 app_secret
    (if ChannelType.from_name channel = ChannelType.Presence then
      socket_id ++ colon ++ channel ++ colon ++ channel_data.getD []
    else
      socket_id ++ colon ++ channel))

/-- The digest `sign_channel` returns (missing presence `channel_data`
defaults to the literal braces string). -/
def sign_digest (app_secret socket_id channel : List Nat)
    (channel_data : Option (List Nat)) : List Nat :=
  hexEncode (hmacSha256 app_secret
    (if ChannelType.from_name channel = ChannelType.Presence then
      socket_id ++ colon ++ channel ++ colon ++ channel_data.getD emptyObj
    else
      socket_id ++ colon ++ channel))

/-! ### Origin parsing and domain matching (`handlers/ws.rs`) -/

/-- ASCII fragment of Rust `str::to_lowercase` (the origins and domain
patterns handled here are ASCII hostnames; the Unicode case mapping of the
source is out of scope). -/
def to_lowercase (s : List Nat) : List Nat :=
  s.map (fun b => if 65 ≤ b && b ≤ 90 then b + 32 else b)

/-- ASCII whitespace, the fragment of `char::is_whitespace` relevant here. -/
def is_wsp (b : Nat) : Bool := b = 32 || (9 ≤ b && b ≤ 13)

/-- Rust `str::trim` over ASCII bytes. -/
def trim (s : List Nat) : List Nat :=
  ((s.dropWhile is_wsp).reverse.dropWhile is_wsp).reverse

/-- Rust `str::strip_prefix`: remove `pat` from the front of `s` if present. -/
def stripLeading (pat s : List Nat) : Option (List Nat) :=
  if starts_with s pat then some (s.drop pat.length) else none

/-- `parse_origin_host` from `handlers/ws.rs`: strip `https://` or `http://`,
take the text up to the first slash (byte 47), and lowercase it. -/
def parse_origin_host (origin : List Nat) : Option (List Nat) :=
  match (stripLeading (ascii "https://") origin).orElse
      (fun _ => stripLeading (ascii "http://") origin) with
  | none => none
  | some u => some (to_lowercase (u.takeWhile (fun b => b ≠ 47)))

/-- Rust `str::ends_with` at the byte level: `pat` is a suffix of `s`. -/
def ends_with (s pat : List Nat) : Bool := pat.isSuffixOf s

/-- `domain_matches` from `handlers/ws.rs`: the pattern is trimmed and
lowercased; a pattern starting with a star (byte 42) matches hosts ending in
the pattern stripped of all leading stars then all leading dots (byte 46);
otherwise the pattern must equal the host exactly. -/
def domain_matches (allowed origin_host : List Nat) : Bool :=
  let allowed := to_lowercase (trim allowed)
  if starts_with allowed [42] then
    ends_with origin_host
      ((allowed.dropWhile (fun b => b = 42)).dropWhile (fun b => b = 46))
  else
    allowed == origin_host

/-! ### JSON values (`serde_json::Value`, as used by the session)

Only the operations the WebSocket handler performs on `channel_data` are
needed: field lookup (`Value::get`), string extraction (`Value::as_str`), and
compact serialization (`Value::to_string`).  Numbers are modelled as integers
and string escaping is elided (the serializer is only consumed abstractly by
the auth payload). -/

inductive Json
  | null
  | bool (b : Bool)
  | num (n : Int)
  | str (s : List Nat)
  | arr (elems : List Json)
  | obj (fields : List (List Nat × Json))

/-- Decimal byte representation of an integer. -/
def intBytes (n : Int) : List Nat :=
  if n < 0 then 45 :: (Nat.toDigits 10 n.natAbs).map Char.toNat
  else (Nat.toDigits 10 n.toNat).map Char.toNat

/-- A JSON string literal: quote bytes (34) around the raw bytes. -/
def strLit (s : List Nat) : List Nat := 34 :: s ++ [34]

mutual

/-- Compact JSON serialization, as `serde_json::Value::to_string` produces
(byte 91/93 brackets, 123/125 braces, 44 comma, 58 colon). -/
def Json.toBytes : Json → List Nat
  | Json.null => ascii "null"
  | Json.bool b => if b then ascii "true" else ascii "false"
  | Json.num n => intBytes n
  | Json.str s => strLit s
  | Json.arr es => 91 :: arrBytes es ++ [93]
  | Json.obj fs => 123 :: objBytes fs ++ [125]

/-- Serialized array elements, comma separated. -/
def arrBytes : List Json → List Nat
  | [] => []
  | [e] => Json.toBytes e
  | e :: rest => Json.toBytes e ++ 44 :: arrBytes rest

/-- Serialized object fields, comma separated. -/
def objBytes : List (List Nat × Json) → List Nat
  | [] => []
  | [(k, v)] => strLit k ++ 58 :: Json.toBytes v
  | (k, v) :: rest => strLit k ++ 58 :: Json.toBytes v ++ 44 :: objBytes rest

end

/-- `serde_json::Value::get` for object fields: the value under `key`, when
the receiver is an object containing it. -/
def Json.get (j : Json) (key : List Nat) : Option Json :=
  match j with
  | Json.obj fs => (fs.find? (fun p => p.1 == key)).map (fun p => p.2)
  | _ => none

/-- `serde_json::Value::as_str`. -/
def Json.as_str : Json → Option (List Nat)
  | Json.str s => some s
  | _ => none

/-! ### Session state machine (`handlers/ws.rs`, `handle_socket`)

The session is embedded as a step function over the subscribed-channel set,
emitting a trace of effects: frames pushed onto the writer queue (`tx.send`),
hub/presence/audit collaborator calls, and forwarder-task spawns.  The
collaborators' outcomes are supplied by a `SessionEnv` record of oracles. -/

/-- A presence user as projected by `PresenceService::list_members`. -/
structure PresenceUser where
  user_id : List Nat
  user_info : Option Json

/-- Parsed inbound client message (`ClientMessage` in `models/event.rs`). -/
inductive ClientMessage
  | subscribe (channel : List Nat) (auth : Option (List Nat)) (channel_data : Option Json)
  | unsubscribe (channel : List Nat)
  | ping

/-- Outbound frames the session writes, structurally (the source serializes
them to JSON text; the shape is one-to-one). -/
inductive Frame
  | connectionEstablished (socket_id : List Nat)
  | subscriptionSucceeded (channel : List Nat) (presence : Option (List (List Nat) × Nat))
  | pong
  | errorFrame (msg : List Nat) (code : Nat)

/-- Observable side effects of the session on its collaborators. -/
inductive Effect
  | sendFrame (f : Frame)
  | hubSubscribe (channel : List Nat)
  | spawnForwarder (channel : List Nat)
  | addMember (channel socket_id user_id : List Nat) (user_info : Option Json)
  | removeMember (channel socket_id : List Nat)
  | listMembers (channel : List Nat)
  | auditConnect (channel : List Nat)
  | auditDisconnectChannel (channel : List Nat)
  | auditDisconnectAll

/-- Outcomes of the session's fallible collaborators: the app secret used by
the auth service, whether `ChannelService::subscribe` succeeds per channel
(and its error text when not), whether `PresenceService::add_member`
succeeds, and what `list_members` returns (`unwrap_or_default` on failure is
folded into the oracle). -/
structure SessionEnv where
  app_secret : List Nat
  hub_ok : List Nat → Bool
  hub_err : List Nat → List Nat
  add_ok : List Nat → Bool
  members : List Nat → List PresenceUser

/-- `channel_data.get("user_id").as_str().unwrap_or("anonymous")` from the
subscribe handler. -/
def user_id_of (channel_data : Option Json) : List Nat :=
  ((channel_data.bind (fun j => j.get (ascii "user_id"))).bind Json.as_str).getD
    (ascii "anonymous")

/-- True when an auth result is `Ok` (`Result::is_ok` on the verify call). -/
def isOk : Except AppError Unit → Bool
  | Except.ok _ => true
  | Except.error _ => false

/-- The `pusher:subscribe` arm of `handle_socket` (ws.rs lines 107-208):
auth check, hub subscribe, subscribed-set insert, audit write, presence
bookkeeping or plain success frame, forwarder spawn. -/
def handleSubscribe (env : SessionEnv) (socket_id : List Nat) (domain : Bool)
    (channel : List Nat) (auth : Option (List Nat)) (channel_data : Option Json)
    (subscribed : List (List Nat)) : List (List Nat) × List Effect :=
  let channel_type := ChannelType.from_name channel
  let auth_ok := isOk (verify_channel_auth env.app_secret channel socket_id auth
    (channel_data.map Json.toBytes))
  if channel_type.is_private && !auth_ok then
    (subscribed,
      [Effect.sendFrame (Frame.errorFrame (ascii "Auth failed for channel") 4009)])
  else if env.hub_ok channel then
    let subscribed' := if channel ∈ subscribed then subscribed else channel :: subscribed
    let auditFx := if domain then [Effect.auditConnect channel] else []
    let presFx :=
      if channel_type = ChannelType.Presence then
        let uid := user_id_of channel_data
        if env.add_ok channel then
          let ms := env.members channel
          [Effect.addMember channel socket_id uid channel_data,
           Effect.listMembers channel,
           Effect.sendFrame (Frame.subscriptionSucceeded channel
             (some (ms.map (fun u => u.user_id), ms.length)))]
        else
          [Effect.addMember channel socket_id uid channel_data]
      else
        [Effect.sendFrame (Frame.subscriptionSucceeded channel none)]
    (subscribed',
      Effect.hubSubscribe channel :: auditFx ++ presFx ++ [Effect.spawnForwarder channel])
  else
    (subscribed,
      [Effect.hubSubscribe channel,
       Effect.sendFrame (Frame.errorFrame
         (ascii "Subscribe failed: " ++ env.hub_err channel) 4009)])

/-- The `pusher:unsubscribe` arm (ws.rs lines 210-226). -/
def handleUnsubscribe (socket_id : List Nat) (domain : Bool) (channel : List Nat)
    (subscribed : List (List Nat)) : List (List Nat) × List Effect :=
  let fx1 :=
    if ChannelType.from_name channel = ChannelType.Presence then
      [Effect.removeMember channel socket_id]
    else []
  let fx2 := if domain then [Effect.auditDisconnectChannel channel] else []
  (subscribed.erase channel, fx1 ++ fx2)

/-- Dispatch one parsed client message (the `match client_msg` of the loop). -/
def processMessage (env : SessionEnv) (socket_id : List Nat) (domain : Bool)
    (m : ClientMessage) (subscribed : List (List Nat)) :
    List (List Nat) × List Effect :=
  match m with
  | ClientMessage.subscribe channel auth channel_data =>
      handleSubscribe env socket_id domain channel auth channel_data subscribed
  | ClientMessage.unsubscribe channel =>
      handleUnsubscribe socket_id domain channel subscribed
  | ClientMessage.ping =>
      (subscribed, [Effect.sendFrame Frame.pong])

/-- One inbound WebSocket stream item: a text frame (parsed, or `none` for
text that fails to parse as a `ClientMessage`), a close frame, any other
frame kind, or a receive error (`Some(Err(_))`, which ends the
`while let Some(Ok(msg))` loop). -/
inductive InMsg
  | text (m : Option ClientMessage)
  | close
  | other
  | recvErr

/-- The receive loop of `handle_socket`: text frames are dispatched, close
frames and receive errors end the loop, everything else is ignored.  Returns
the final subscribed set and the loop's effect trace. -/
def runLoop (env : SessionEnv) (socket_id : List Nat) (domain : Bool) :
    List InMsg → List (List Nat) → List (List Nat) × List Effect
  | [], subscribed => (subscribed, [])
  | InMsg.close :: _, subscribed => (subscribed, [])
  | InMsg.recvErr :: _, subscribed => (subscribed, [])
  | InMsg.other :: rest, subscribed => runLoop env socket_id domain rest subscribed
  | InMsg.text none :: rest, subscribed => runLoop env socket_id domain rest subscribed
  | InMsg.text (some m) :: rest, subscribed =>
      let step := processMessage env socket_id domain m subscribed
      let cont := runLoop env socket_id domain rest step.1
      (cont.1, step.2 ++ cont.2)

/-- The teardown after the loop (ws.rs lines 239-246): remove presence
membership for every presence channel still subscribed, then mark audit rows
disconnected when domain-authenticated. -/
def cleanupEffects (socket_id : List Nat) (domain : Bool)
    (subscribed : List (List Nat)) : List Effect :=
  (subscribed.filter
      (fun c => ChannelType.from_name c = ChannelType.Presence)).map
    (fun c => Effect.removeMember c socket_id) ++
  (if domain then [Effect.auditDisconnectAll] else [])

/-- A whole session: the `connection_established` frame (whose send is
modelled as succeeding), the receive loop from an empty subscribed set, and
the teardown. -/
def runSession (env : SessionEnv) (socket_id : List Nat) (domain : Bool)
    (msgs : List InMsg) : List Effect :=
  let run := runLoop env socket_id domain msgs []
  Effect.sendFrame (Frame.connectionEstablished socket_id) ::
    run.2 ++ cleanupEffects socket_id domain run.1

/-! ### Channel hub (`services/channel.rs`)

`ChannelService::subscribe` holds the `RwLock` write guard across its whole
body, including the `subscribe_to_channel` adapter call, so each call is one
atomic critical section; any interleaving of concurrent calls is therefore a
sequence of the atomic steps below.  Broadcast senders and the receivers
derived from them are named by fresh numeric ids; the adapter-call log
records each `subscribe_to_channel` invocation. -/

/-- A local receiver: the broadcast sender it is attached to, and its own
identity. -/
structure Receiver where
  sender : Nat
  id : Nat
deriving DecidableEq, Repr

/-- Hub state: the channel map, the log of adapter `subscribe_to_channel`
invocations, and a fresh-id source. -/
structure HubState where
  senders : List (List Nat × Nat)
  adapterCalls : List (List Nat)
  nextId : Nat

/-- The hub before any subscription. -/
def hub0 : HubState := ⟨[], [], 0⟩

/-- One `ChannelService::subscribe(channel)` critical section: an existing
entry yields a fresh receiver on its sender; otherwise the adapter is
invoked, a new sender (capacity 64) is inserted, and a receiver is derived
from it. -/
def hubSubscribeStep (st : HubState) (channel : List Nat) : HubState × Receiver :=
  match st.senders.find? (fun p => p.1 == channel) with
  | some p => ({ st with nextId := st.nextId + 1 }, ⟨p.2, st.nextId⟩)
  | none =>
      let s := st.nextId
      ({ senders := (channel, s) :: st.senders,
         adapterCalls := st.adapterCalls ++ [channel],
         nextId := st.nextId + 2 },
       ⟨s, st.nextId + 1⟩)

/-- Run a serialized sequence of subscribe calls, collecting the returned
receivers. -/
def runHub : List (List Nat) → HubState → HubState × List Receiver
  | [], st => (st, [])
  | c :: rest, st =>
      let step := hubSubscribeStep st c
      let cont := runHub rest step.1
      (cont.1, step.2 :: cont.2)

/-- Recognizer for the `remove_member(c, sock)` effect, used to count
presence-cleanup invocations. -/
def isRemoveFor (c sock : List Nat) : Effect → Bool
  | Effect.removeMember c2 s2 => c2 == c && s2 == sock
  | _ => false

/-- A concrete session environment in which every collaborator succeeds. -/
def envW : SessionEnv :=
  ⟨ascii "secret", fun _ => true, fun _ => [], fun _ => true, fun _ => []⟩

/-- A concrete session environment in which `add_member` fails. -/
def envWaddFail : SessionEnv :=
  ⟨ascii "secret", fun _ => true, fun _ => [], fun _ => false, fun _ => []⟩

/-! ### Auth characterization lemmas -/

lemma presence_private_not_both (name : List Nat) :
    starts_with name (ascii "presence-") = true →
    starts_with name (ascii "private-") = true → False := by
  intro h1 h2
  rw [starts_with, List.isPrefixOf_iff_prefix] at h1 h2
  obtain ⟨t1, e1⟩ := h1
  obtain ⟨t2, e2⟩ := h2
  rw [← e1] at e2
  have hp : ascii "presence-" = [112, 114, 101, 115, 101, 110, 99, 101, 45] := by decide
  have hq : ascii "private-" = [112, 114, 105, 118, 97, 116, 101, 45] := by decide
  rw [hp, hq] at e2
  simp at e2

lemma sign_channel_eq (secret sock channel : List Nat) (data : Option (List Nat)) :
    sign_channel secret sock channel data =
      Except.ok (sign_digest secret sock channel data) := rfl

lemma verify_none_eq (secret channel sock : List Nat) (data : Option (List Nat))
    (h : (ChannelType.from_name channel).is_private = true) :
    verify_channel_auth secret channel sock none data =
      Except.error (AppError.Auth (ascii "missing auth for private/presence channel")) := by
  simp [verify_channel_auth, h]

lemma verify_some_eq (secret channel sock a : List Nat) (data : Option (List Nat))
    (h : (ChannelType.from_name channel).is_private = true) :
    verify_channel_auth secret channel sock (some a) data =
      if a = expected_digest secret channel sock data then Except.ok ()
      else Except.error (AppError.Auth (ascii "invalid auth signature")) := by
  simp [verify_channel_auth, expected_digest, h]

lemma sign_digest_eq_expected (secret sock channel : List Nat) (data : Option (List Nat))
    (h : ChannelType.from_name channel = ChannelType.Private ∨ data ≠ none) :
    sign_digest secret sock channel data = expected_digest secret channel sock data := by
  rcases h with h | h
  · simp [sign_digest, expected_digest, h]
  · obtain ⟨d, rfl⟩ := Option.ne_none_iff_exists'.mp h
    by_cases hc : ChannelType.from_name channel = ChannelType.Presence <;>
      simp [sign_digest, expected_digest, hc]

/-- C6: classification is total — every name maps to exactly one of the three
variants; a `presence-` name classifies Presence, a `private-` name Private,
anything else Public, and the two authenticated prefixes are mutually
exclusive. -/
theorem classify_totality (name : List Nat) :
    (ChannelType.from_name name = ChannelType.Public ∨
     ChannelType.from_name name = ChannelType.Private ∨
     ChannelType.from_name name = ChannelType.Presence) ∧
    (starts_with name (ascii "presence-") = true →
      ChannelType.from_name name = ChannelType.Presence) ∧
    (starts_with name (ascii "private-") = true →
      ChannelType.from_name name = ChannelType.Private) ∧
    (starts_with name (ascii "presence-") = false →
      starts_with name (ascii "private-") = false →
      ChannelType.from_name name = ChannelType.Public) ∧
    ((starts_with name (ascii "presence-") && starts_with name (ascii "private-")) = false) := by
  refine ⟨?_, ?_, ?_, ?_, ?_⟩
  · unfold ChannelType.from_name
    split
    · exact Or.inr (Or.inr rfl)
    · split
      · exact Or.inr (Or.inl rfl)
      · exact Or.inl rfl
  · intro h
    simp [ChannelType.from_name, h]
  · intro h
    have h1 : starts_with name (ascii "presence-") = false := by
      cases hx : starts_with name (ascii "presence-") with
      | false => rfl
      | true => exact False.elim (presence_private_not_both name hx h)
    simp [ChannelType.from_name, h1, h]
  · intro h1 h2
    simp [ChannelType.from_name, h1, h2]
  · cases hx : starts_with name (ascii "presence-") with
    | false => simp
    | true =>
      cases hy : starts_with name (ascii "private-") with
      | false => simp
      | true => exact False.elim (presence_private_not_both name hx hy)

/-- C6 witness: the three classifications on concrete names, via
`classify_totality`. -/
theorem classify_totality_witness :
    ChannelType.from_name (ascii "presence-chat") = ChannelType.Presence ∧
    ChannelType.from_name (ascii "private-user-1") = ChannelType.Private ∧
    ChannelType.from_name (ascii "my-channel") = ChannelType.Public :=
  ⟨(classify_totality (ascii "presence-chat")).2.1 (by decide),
   (classify_totality (ascii "private-user-1")).2.2.1 (by decide),
   (classify_totality (ascii "my-channel")).2.2.2.1 (by decide) (by decide)⟩

/-- C8: on a Public channel `verify_channel_auth` accepts every socket id,
every supplied auth value (present or absent), and every channel data. -/
theorem public_bypass (secret channel sock : List Nat) (auth data : Option (List Nat))
    (h : ChannelType.from_name channel = ChannelType.Public) :
    verify_channel_auth secret channel sock auth data = Except.ok () := by
  simp [verify_channel_auth, h, ChannelType.is_private]

/-- C8 witness: a Public channel with a garbage auth value verifies. -/
theorem public_bypass_witness :
    ChannelType.from_name (ascii "room-1") = ChannelType.Public ∧
    verify_channel_auth (ascii "secret") (ascii "room-1") (ascii "7.abc")
      (some (ascii "deadbeef")) none = Except.ok () :=
  ⟨by decide, public_bypass _ _ _ _ _ (by decide)⟩

/-- C3: for a Presence channel with absent channel data, `sign_channel`
digests the payload ending in the literal braces object while
`verify_channel_auth` compares against the digest of the payload ending in
the empty string — the two defaults disagree. -/
theorem sign_verify_default_asymmetry (secret sock channel : List Nat)
    (h : ChannelType.from_name channel = ChannelType.Presence) :
    sign_channel secret sock channel none =
      Except.ok (hexEncode (hmacSha256 secret
        (sock ++ colon ++ channel ++ colon ++ emptyObj))) ∧
    ∀ a, (verify_channel_auth secret channel sock (some a) none = Except.ok () ↔
      a = hexEncode (hmacSha256 secret (sock ++ colon ++ channel ++ colon))) := by
  have hpriv : (ChannelType.from_name channel).is_private = true := by
    rw [h]; rfl
  constructor
  · rw [sign_channel_eq]
    simp [sign_digest, h]
  · intro a
    rw [verify_some_eq _ _ _ _ _ hpriv]
    have he : expected_digest secret channel sock none =
        hexEncode (hmacSha256 secret (sock ++ colon ++ channel ++ colon)) := by
      simp [expected_digest, h]
    rw [he]
    constructor
    · intro hok
      by_contra hne
      rw [if_neg hne] at hok
      simp at hok
    · intro ha
      rw [if_pos ha]

/-- C3 witness: the asymmetry instantiated on `presence-chat`. -/
theorem sign_verify_default_asymmetry_witness :
    ChannelType.from_name (ascii "presence-chat") = ChannelType.Presence ∧
    (sign_channel (ascii "secret") (ascii "1.a") (ascii "presence-chat") none =
      Except.ok (hexEncode (hmacSha256 (ascii "secret")
        (ascii "1.a" ++ colon ++ ascii "presence-chat" ++ colon ++ emptyObj))) ∧
     ∀ a, (verify_channel_auth (ascii "secret") (ascii "presence-chat") (ascii "1.a")
        (some a) none = Except.ok () ↔
      a = hexEncode (hmacSha256 (ascii "secret")
        (ascii "1.a" ++ colon ++ ascii "presence-chat" ++ colon)))) :=
  ⟨by decide, sign_verify_default_asymmetry _ _ _ (by decide)⟩

set_option maxRecDepth 1000000 in
/-- C1 counterexample: the round trip fails as stated.  First, a Presence
channel with absent channel data does not round-trip: the signature produced
by `sign_channel` (over the braces default) is rejected by
`verify_channel_auth` (which compares against the empty-string default).
Second, altering one byte of the channel (`private-a` to `qrivate-a`) makes
the channel Public, so verification succeeds instead of failing. -/
theorem auth_roundtrip_counterexample :
    (sign_channel (ascii "secret") (ascii "123.456") (ascii "presence-a") none =
      Except.ok (sign_digest (ascii "secret") (ascii "123.456") (ascii "presence-a") none) ∧
     verify_channel_auth (ascii "secret") (ascii "presence-a") (ascii "123.456")
        (some (sign_digest (ascii "secret") (ascii "123.456") (ascii "presence-a") none)) none =
      Except.error (AppError.Auth (ascii "invalid auth signature"))) ∧
    verify_channel_auth (ascii "secret") (ascii "qrivate-a") (ascii "123.456")
        (some (sign_digest (ascii "secret") (ascii "123.456") (ascii "private-a") none)) none =
      Except.ok () := by
  refine ⟨⟨sign_channel_eq _ _ _ _, ?_⟩, rfl⟩
  rw [verify_some_eq _ _ _ _ _ (by decide)]
  rw [if_neg (by decide)]

/-- C1 amended: on a Private channel, or a Presence channel whose channel
data is present, the signature from `sign_channel` is accepted by
`verify_channel_auth`; any other supplied signature is rejected; and a
verification of the same signature against altered socket id, channel, or
channel data fails provided the altered channel still classifies as Private
or Presence and the recomputed digest differs from the signature (HMAC
non-collision at the altered payload). -/
theorem auth_roundtrip_amended (secret sock channel : List Nat) (data : Option (List Nat))
    (h1 : (ChannelType.from_name channel).is_private = true)
    (h2 : ChannelType.from_name channel = ChannelType.Private ∨ data ≠ none) :
    ∃ sig,
      sign_channel secret sock channel data = Except.ok sig ∧
      verify_channel_auth secret channel sock (some sig) data = Except.ok () ∧
      (∀ sig2, sig2 ≠ sig →
        verify_channel_auth secret channel sock (some sig2) data =
          Except.error (AppError.Auth (ascii "invalid auth signature"))) ∧
      (∀ sock2 channel2 data2, (ChannelType.from_name channel2).is_private = true →
        expected_digest secret channel2 sock2 data2 ≠ sig →
        verify_channel_auth secret channel2 sock2 (some sig) data2 =
          Except.error (AppError.Auth (ascii "invalid auth signature"))) := by
  refine ⟨sign_digest secret sock channel data, sign_channel_eq _ _ _ _, ?_, ?_, ?_⟩
  · rw [verify_some_eq _ _ _ _ _ h1,
      if_pos (sign_digest_eq_expected secret sock channel data h2)]
  · intro sig2 hne
    rw [verify_some_eq _ _ _ _ _ h1,
      ← sign_digest_eq_expected secret sock channel data h2, if_neg hne]
  · intro sock2 channel2 data2 hp hne
    rw [verify_some_eq _ _ _ _ _ hp, if_neg (fun hc => hne hc.symm)]

/-- C1 witness: the amended round trip instantiated on `private-x`. -/
theorem auth_roundtrip_amended_witness :
    ((ChannelType.from_name (ascii "private-x")).is_private = true) ∧
    (ChannelType.from_name (ascii "private-x") = ChannelType.Private ∨
      (none : Option (List Nat)) ≠ none) ∧
    (∃ sig,
      sign_channel (ascii "s") (ascii "1.1") (ascii "private-x") none = Except.ok sig ∧
      verify_channel_auth (ascii "s") (ascii "private-x") (ascii "1.1")
        (some sig) none = Except.ok () ∧
      (∀ sig2, sig2 ≠ sig →
        verify_channel_auth (ascii "s") (ascii "private-x") (ascii "1.1")
          (some sig2) none =
          Except.error (AppError.Auth (ascii "invalid auth signature"))) ∧
      (∀ sock2 channel2 data2, (ChannelType.from_name channel2).is_private = true →
        expected_digest (ascii "s") channel2 sock2 data2 ≠ sig →
        verify_channel_auth (ascii "s") channel2 sock2 (some sig) data2 =
          Except.error (AppError.Auth (ascii "invalid auth signature")))) :=
  ⟨by decide, Or.inl (by decide),
   auth_roundtrip_amended (ascii "s") (ascii "1.1") (ascii "private-x") none
     (by decide) (Or.inl (by decide))⟩

/-! ### Origin matching lemmas -/

lemma http_not_https (rest : List Nat) :
    starts_with (ascii "http://" ++ rest) (ascii "https://") = false := by
  have h1 : ascii "http://" = [104, 116, 116, 112, 58, 47, 47] := by decide
  have h2 : ascii "https://" = [104, 116, 116, 112, 115, 58, 47, 47] := by decide
  rw [h1, h2]
  simp [starts_with, List.isPrefixOf]

lemma stripLeading_self_append (pat rest : List Nat) :
    stripLeading pat (pat ++ rest) = some rest := by
  unfold stripLeading
  rw [if_pos (by rw [starts_with, List.isPrefixOf_iff_prefix]; exact List.prefix_append pat rest)]
  rw [List.drop_left]

/-- C7 counterexample: an exact pattern does not match case-insensitively —
the host is compared verbatim while only the pattern is lowercased, so the
uppercase host `EXAMPLE.COM` fails against the pattern `example.com` although
the two are case-insensitively equal. -/
theorem origin_matching_counterexample :
    domain_matches (ascii "example.com") (ascii "EXAMPLE.COM") = false ∧
    to_lowercase (ascii "example.com") = to_lowercase (ascii "EXAMPLE.COM") := by
  exact ⟨by decide, by decide⟩

/-- C7 amended: `parse_origin_host` returns none without an `http://` or
`https://` scheme and otherwise the lowercased text between the scheme and
the first slash; `domain_matches` first trims and lowercases the pattern,
then an exact pattern matches iff that trimmed lowercased pattern equals the
host byte-for-byte, and a star pattern matches iff the host ends with the
pattern stripped of all leading stars then all leading dots. -/
theorem origin_matching_amended :
    (∀ origin : List Nat, starts_with origin (ascii "https://") = false →
      starts_with origin (ascii "http://") = false →
      parse_origin_host origin = none) ∧
    (∀ rest : List Nat,
      parse_origin_host (ascii "https://" ++ rest) =
        some (to_lowercase (rest.takeWhile (fun b => b ≠ 47))) ∧
      parse_origin_host (ascii "http://" ++ rest) =
        some (to_lowercase (rest.takeWhile (fun b => b ≠ 47)))) ∧
    (∀ allowed host : List Nat,
      starts_with (to_lowercase (trim allowed)) [42] = false →
      (domain_matches allowed host = true ↔ to_lowercase (trim allowed) = host)) ∧
    (∀ allowed host : List Nat,
      starts_with (to_lowercase (trim allowed)) [42] = true →
      (domain_matches allowed host = true ↔
        ends_with host (((to_lowercase (trim allowed)).dropWhile (fun b => b = 42)).dropWhile
          (fun b => b = 46)) = true)) := by
  refine ⟨?_, ?_, ?_, ?_⟩
  · intro origin h1 h2
    simp [parse_origin_host, stripLeading, h1, h2, Option.orElse]
  · intro rest
    constructor
    · unfold parse_origin_host
      rw [stripLeading_self_append]
      rfl
    · unfold parse_origin_host
      rw [show stripLeading (ascii "https://") (ascii "http://" ++ rest) = none from by
        unfold stripLeading
        rw [if_neg (by rw [http_not_https]; exact Bool.false_ne_true)]]
      rw [show (none : Option (List Nat)).orElse
          (fun _ => stripLeading (ascii "http://") (ascii "http://" ++ rest)) =
          stripLeading (ascii "http://") (ascii "http://" ++ rest) from rfl]
      rw [stripLeading_self_append]
  · intro allowed host h
    simp [domain_matches, h]
  · intro allowed host h
    simp [domain_matches, h]

/-- C7 witness: the four clauses of the amended origin-matching claim at
concrete origins, patterns, and hosts. -/
theorem origin_matching_amended_witness :
    parse_origin_host (ascii "nope.example.com") = none ∧
    parse_origin_host (ascii "https://" ++ ascii "App.Example.com/path") =
      some (to_lowercase ((ascii "App.Example.com/path").takeWhile (fun b => b ≠ 47))) ∧
    (domain_matches (ascii "app.example.com") (ascii "app.example.com") = true ↔
      to_lowercase (trim (ascii "app.example.com")) = ascii "app.example.com") ∧
    (domain_matches (ascii "*.example.com") (ascii "app.example.com") = true ↔
      ends_with (ascii "app.example.com")
        (((to_lowercase (trim (ascii "*.example.com"))).dropWhile (fun b => b = 42)).dropWhile
          (fun b => b = 46)) = true) :=
  ⟨origin_matching_amended.1 _ (by decide) (by decide),
   (origin_matching_amended.2.1 _).1,
   origin_matching_amended.2.2.1 _ _ (by decide),
   origin_matching_amended.2.2.2 _ _ (by decide)⟩

/-! ### Hub lemmas -/

lemma runHub_length (cs : List (List Nat)) (st : HubState) :
    (runHub cs st).2.length = cs.length := by
  induction cs generalizing st with
  | nil => rfl
  | cons c rest ih => simp [runHub, ih]

lemma find?_cons_self (c : List Nat) (s : Nat) (l : List (List Nat × Nat)) :
    ((c, s) :: l).find? (fun p => p.1 == c) = some (c, s) := by
  simp [List.find?]

lemma runHub_warm (n : Nat) (c : List Nat) (s : Nat) (st : HubState)
    (h : st.senders.find? (fun p => p.1 == c) = some (c, s)) :
    (runHub (List.replicate n c) st).1.senders = st.senders ∧
    (runHub (List.replicate n c) st).1.adapterCalls = st.adapterCalls ∧
    ∀ r ∈ (runHub (List.replicate n c) st).2, r.sender = s := by
  induction n generalizing st with
  | zero => exact ⟨rfl, rfl, by intro r hr; cases hr⟩
  | succ n ih =>
    have hstep : hubSubscribeStep st c =
        (⟨st.senders, st.adapterCalls, st.nextId + 1⟩, ⟨s, st.nextId⟩) := by
      simp [hubSubscribeStep, h]
    obtain ⟨h1, h2, h3⟩ := ih ⟨st.senders, st.adapterCalls, st.nextId + 1⟩ h
    simp only [List.replicate_succ, runHub, hstep]
    dsimp only at h1 h2 ⊢
    refine ⟨h1, h2, ?_⟩
    intro r hr
    rcases List.mem_cons.mp hr with hr | hr
    · rw [hr]
    · exact h3 r hr

lemma runHub_ids (cs : List (List Nat)) (st : HubState) :
    st.nextId ≤ (runHub cs st).1.nextId ∧
    (∀ r ∈ (runHub cs st).2, st.nextId ≤ r.id ∧ r.id < (runHub cs st).1.nextId) ∧
    List.Pairwise (fun a b => a.id ≠ b.id) (runHub cs st).2 := by
  induction cs generalizing st with
  | nil => simp [runHub]
  | cons c rest ih =>
    cases hf : st.senders.find? (fun p => p.1 == c) with
    | some p =>
      have hstep : hubSubscribeStep st c =
          (⟨st.senders, st.adapterCalls, st.nextId + 1⟩, ⟨p.2, st.nextId⟩) := by
        simp [hubSubscribeStep, hf]
      obtain ⟨ia, ib, ic⟩ := ih ⟨st.senders, st.adapterCalls, st.nextId + 1⟩
      simp only [runHub, hstep]
      dsimp only at ia ib ⊢
      refine ⟨by omega, ?_, ?_⟩
      · intro r hr
        rcases List.mem_cons.mp hr with hr | hr
        · rw [hr]; dsimp only; omega
        · have := ib r hr; exact ⟨by omega, this.2⟩
      · refine List.Pairwise.cons ?_ ic
        intro b hb
        have := (ib b hb).1
        dsimp only
        omega
    | none =>
      have hstep : hubSubscribeStep st c =
          (⟨(c, st.nextId) :: st.senders, st.adapterCalls ++ [c], st.nextId + 2⟩,
           ⟨st.nextId, st.nextId + 1⟩) := by
        simp [hubSubscribeStep, hf]
      obtain ⟨ia, ib, ic⟩ :=
        ih ⟨(c, st.nextId) :: st.senders, st.adapterCalls ++ [c], st.nextId + 2⟩
      simp only [runHub, hstep]
      dsimp only at ia ib ⊢
      refine ⟨by omega, ?_, ?_⟩
      · intro r hr
        rcases List.mem_cons.mp hr with hr | hr
        · rw [hr]; dsimp only; omega
        · have := ib r hr; exact ⟨by omega, this.2⟩
      · refine List.Pairwise.cons ?_ ic
        intro b hb
        have := (ib b hb).1
        dsimp only
        omega

/-- C2: N serialized `subscribe(C)` calls on a hub with no entry for C — the
serialization is what the write lock held across the whole critical section
(adapter call included) guarantees — invoke `subscribe_to_channel` on the
adapter exactly once, and all N callers get pairwise-distinct receivers
attached to the single broadcast sender stored for C. -/
theorem hub_at_most_one_upstream (N : Nat) (c : List Nat) (st : HubState)
    (hcold : st.senders.find? (fun p => p.1 == c) = none)
    (hcount : st.adapterCalls.count c = 0)
    (hN : 1 ≤ N) :
    (runHub (List.replicate N c) st).1.adapterCalls.count c = 1 ∧
    (∃ s, (runHub (List.replicate N c) st).1.senders.find? (fun p => p.1 == c) =
        some (c, s) ∧
      ∀ r ∈ (runHub (List.replicate N c) st).2, r.sender = s) ∧
    (runHub (List.replicate N c) st).2.length = N ∧
    List.Pairwise (fun a b => a.id ≠ b.id) (runHub (List.replicate N c) st).2 := by
  obtain ⟨n, rfl⟩ : ∃ n, N = n + 1 := ⟨N - 1, by omega⟩
  have hstep : hubSubscribeStep st c =
      (⟨(c, st.nextId) :: st.senders, st.adapterCalls ++ [c], st.nextId + 2⟩,
       ⟨st.nextId, st.nextId + 1⟩) := by
    simp [hubSubscribeStep, hcold]
  obtain ⟨w1, w2, w3⟩ := runHub_warm n c st.nextId
    ⟨(c, st.nextId) :: st.senders, st.adapterCalls ++ [c], st.nextId + 2⟩
    (find?_cons_self c st.nextId st.senders)
  have hpw := (runHub_ids (List.replicate (n + 1) c) st).2.2
  simp only [List.replicate_succ, runHub, hstep] at hpw ⊢
  dsimp only at w1 w2 ⊢
  refine ⟨?_, ⟨st.nextId, ?_, ?_⟩, ?_, hpw⟩
  · rw [w2]
    simp [List.count_append, hcount]
  · rw [w1]
    exact find?_cons_self c st.nextId st.senders
  · intro r hr
    rcases List.mem_cons.mp hr with hr | hr
    · rw [hr]
    · exact w3 r hr
  · simp [runHub_length]

/-- C2 witness: three subscribe calls on the empty hub for one channel. -/
theorem hub_at_most_one_upstream_witness :
    (runHub (List.replicate 3 (ascii "ch")) hub0).1.adapterCalls.count (ascii "ch") = 1 ∧
    (∃ s, (runHub (List.replicate 3 (ascii "ch")) hub0).1.senders.find?
        (fun p => p.1 == ascii "ch") = some (ascii "ch", s) ∧
      ∀ r ∈ (runHub (List.replicate 3 (ascii "ch")) hub0).2, r.sender = s) ∧
    (runHub (List.replicate 3 (ascii "ch")) hub0).2.length = 3 ∧
    List.Pairwise (fun a b => a.id ≠ b.id) (runHub (List.replicate 3 (ascii "ch")) hub0).2 :=
  hub_at_most_one_upstream 3 (ascii "ch") hub0 (by decide) (by decide) (by decide)

/-! ### Session lemmas -/

/-- C5: when auth verification fails on an authenticated channel (absent auth
included), the subscribe arm emits exactly one `pusher:error` frame with
message "Auth failed for channel" and code 4009, performs no hub subscribe,
leaves the subscribed set unchanged, and the receive loop continues with the
remaining messages. -/
theorem auth_failure_single_error_frame (env : SessionEnv) (sock : List Nat)
    (domain : Bool) (sub : List (List Nat)) (channel : List Nat)
    (auth : Option (List Nat)) (data : Option Json)
    (h1 : (ChannelType.from_name channel).is_private = true)
    (h2 : isOk (verify_channel_auth env.app_secret channel sock auth
      (data.map Json.toBytes)) = false) :
    (auth = none →
      verify_channel_auth env.app_secret channel sock auth (data.map Json.toBytes) =
        Except.error (AppError.Auth (ascii "missing auth for private/presence channel"))) ∧
    processMessage env sock domain (ClientMessage.subscribe channel auth data) sub =
      (sub, [Effect.sendFrame (Frame.errorFrame (ascii "Auth failed for channel") 4009)]) ∧
    ∀ rest, runLoop env sock domain
        (InMsg.text (some (ClientMessage.subscribe channel auth data)) :: rest) sub =
      ((runLoop env sock domain rest sub).1,
       Effect.sendFrame (Frame.errorFrame (ascii "Auth failed for channel") 4009) ::
         (runLoop env sock domain rest sub).2) := by
  have hproc : processMessage env sock domain
      (ClientMessage.subscribe channel auth data) sub =
      (sub, [Effect.sendFrame (Frame.errorFrame (ascii "Auth failed for channel") 4009)]) := by
    simp [processMessage, handleSubscribe, h1, h2]
  refine ⟨?_, hproc, ?_⟩
  · intro ha
    subst ha
    exact verify_none_eq _ _ _ _ h1
  · intro rest
    simp [runLoop, hproc]

/-- C5 witness: subscribing to `private-x` with no auth produces the single
4009 error frame and leaves the state unchanged. -/
theorem auth_failure_single_error_frame_witness :
    ((ChannelType.from_name (ascii "private-x")).is_private = true) ∧
    (isOk (verify_channel_auth envW.app_secret (ascii "private-x") (ascii "1.1") none
      ((none : Option Json).map Json.toBytes)) = false) ∧
    processMessage envW (ascii "1.1") false
        (ClientMessage.subscribe (ascii "private-x") none none) [] =
      ([], [Effect.sendFrame (Frame.errorFrame (ascii "Auth failed for channel") 4009)]) :=
  ⟨by decide, by decide,
   (auth_failure_single_error_frame envW (ascii "1.1") false [] (ascii "private-x")
     none none (by decide) (by decide)).2.1⟩

/-- C9: a presence subscribe whose auth and hub subscribe succeed but whose
`add_member` fails sends no frame at all (neither success nor error), yet the
channel is inserted into the subscribed set, the forwarder task is spawned,
and the `add_member` attempt is on the trace. -/
theorem add_member_failure_silent (env : SessionEnv) (sock : List Nat)
    (domain : Bool) (sub : List (List Nat)) (channel : List Nat)
    (auth : Option (List Nat)) (data : Option Json)
    (h1 : ChannelType.from_name channel = ChannelType.Presence)
    (h2 : isOk (verify_channel_auth env.app_secret channel sock auth
      (data.map Json.toBytes)) = true)
    (h3 : env.hub_ok channel = true)
    (h4 : env.add_ok channel = false) :
    (∀ f, Effect.sendFrame f ∉
      (processMessage env sock domain (ClientMessage.subscribe channel auth data) sub).2) ∧
    channel ∈
      (processMessage env sock domain (ClientMessage.subscribe channel auth data) sub).1 ∧
    Effect.spawnForwarder channel ∈
      (processMessage env sock domain (ClientMessage.subscribe channel auth data) sub).2 ∧
    Effect.addMember channel sock (user_id_of data) data ∈
      (processMessage env sock domain (ClientMessage.subscribe channel auth data) sub).2 := by
  have hpriv : (ChannelType.from_name channel).is_private = true := by rw [h1]; rfl
  by_cases hs : channel ∈ sub <;> cases domain <;>
    simp [processMessage, handleSubscribe, hpriv, h1, h2, h3, h4, hs]

/-- C9 witness: the silent `add_member` failure on `presence-r`. -/
theorem add_member_failure_silent_witness :
    (ChannelType.from_name (ascii "presence-r") = ChannelType.Presence) ∧
    (isOk (verify_channel_auth envWaddFail.app_secret (ascii "presence-r") (ascii "1.1")
      (some (expected_digest envWaddFail.app_secret (ascii "presence-r") (ascii "1.1") none))
      ((none : Option Json).map Json.toBytes)) = true) ∧
    (envWaddFail.hub_ok (ascii "presence-r") = true) ∧
    (envWaddFail.add_ok (ascii "presence-r") = false) ∧
    ((∀ f, Effect.sendFrame f ∉
      (processMessage envWaddFail (ascii "1.1") false
        (ClientMessage.subscribe (ascii "presence-r")
          (some (expected_digest envWaddFail.app_secret (ascii "presence-r") (ascii "1.1") none))
          none) []).2) ∧
     ascii "presence-r" ∈
      (processMessage envWaddFail (ascii "1.1") false
        (ClientMessage.subscribe (ascii "presence-r")
          (some (expected_digest envWaddFail.app_secret (ascii "presence-r") (ascii "1.1") none))
          none) []).1 ∧
     Effect.spawnForwarder (ascii "presence-r") ∈
      (processMessage envWaddFail (ascii "1.1") false
        (ClientMessage.subscribe (ascii "presence-r")
          (some (expected_digest envWaddFail.app_secret (ascii "presence-r") (ascii "1.1") none))
          none) []).2 ∧
     Effect.addMember (ascii "presence-r") (ascii "1.1") (user_id_of none) none ∈
      (processMessage envWaddFail (ascii "1.1") false
        (ClientMessage.subscribe (ascii "presence-r")
          (some (expected_digest envWaddFail.app_secret (ascii "presence-r") (ascii "1.1") none))
          none) []).2) :=
  ⟨by decide,
   by rw [show (none : Option Json).map Json.toBytes = none from rfl,
        verify_some_eq _ _ _ _ _ (by decide), if_pos rfl]; rfl,
   rfl, rfl,
   add_member_failure_silent envWaddFail (ascii "1.1") false [] (ascii "presence-r")
     (some (expected_digest envWaddFail.app_secret (ascii "presence-r") (ascii "1.1") none)) none
     (by decide)
     (by rw [show (none : Option Json).map Json.toBytes = none from rfl,
          verify_some_eq _ _ _ _ _ (by decide), if_pos rfl]; rfl)
     rfl rfl⟩

/-- C10: the member record a presence subscribe passes to `add_member`
carries the entire `channel_data` JSON value as its `user_info` (null when
absent), with `user_id` read from the `user_id` field of that same value —
never a `user_info` sub-field. -/
theorem presence_user_info_whole_channel_data (env : SessionEnv) (sock : List Nat)
    (domain : Bool) (sub : List (List Nat)) (channel : List Nat)
    (auth : Option (List Nat)) (data : Option Json)
    (h1 : ChannelType.from_name channel = ChannelType.Presence)
    (h2 : isOk (verify_channel_auth env.app_secret channel sock auth
      (data.map Json.toBytes)) = true)
    (h3 : env.hub_ok channel = true) :
    Effect.addMember channel sock (user_id_of data) data ∈
      (processMessage env sock domain (ClientMessage.subscribe channel auth data) sub).2 ∧
    (∀ c s u info, Effect.addMember c s u info ∈
        (processMessage env sock domain (ClientMessage.subscribe channel auth data) sub).2 →
      c = channel ∧ s = sock ∧ u = user_id_of data ∧ info = data) := by
  have hpriv : (ChannelType.from_name channel).is_private = true := by rw [h1]; rfl
  constructor
  · by_cases ha : env.add_ok channel <;> cases domain <;>
      simp [processMessage, handleSubscribe, hpriv, h1, h2, h3, ha]
  · intro c s u info hmem
    by_cases ha : env.add_ok channel <;> cases domain <;>
      simp [processMessage, handleSubscribe, hpriv, h1, h2, h3, ha] at hmem <;>
      exact ⟨hmem.1, hmem.2.1, hmem.2.2.1, hmem.2.2.2⟩

/-- C10 witness: a presence subscribe carrying a channel-data object whose
stored `user_info` is that whole object. -/
theorem presence_user_info_whole_channel_data_witness :
    (ChannelType.from_name (ascii "presence-r") = ChannelType.Presence) ∧
    (isOk (verify_channel_auth envW.app_secret (ascii "presence-r") (ascii "1.1")
      (some (expected_digest envW.app_secret (ascii "presence-r") (ascii "1.1")
        (some (Json.toBytes (Json.obj [(ascii "user_id", Json.str (ascii "u1"))])))))
      ((some (Json.obj [(ascii "user_id", Json.str (ascii "u1"))])).map Json.toBytes)) = true) ∧
    (Effect.addMember (ascii "presence-r") (ascii "1.1")
        (user_id_of (some (Json.obj [(ascii "user_id", Json.str (ascii "u1"))])))
        (some (Json.obj [(ascii "user_id", Json.str (ascii "u1"))])) ∈
      (processMessage envW (ascii "1.1") false
        (ClientMessage.subscribe (ascii "presence-r")
          (some (expected_digest envW.app_secret (ascii "presence-r") (ascii "1.1")
            (some (Json.toBytes (Json.obj [(ascii "user_id", Json.str (ascii "u1"))])))))
          (some (Json.obj [(ascii "user_id", Json.str (ascii "u1"))]))) []).2) :=
  ⟨by decide,
   by rw [show (some (Json.obj [(ascii "user_id", Json.str (ascii "u1"))])).map Json.toBytes =
        some (Json.toBytes (Json.obj [(ascii "user_id", Json.str (ascii "u1"))])) from rfl,
      verify_some_eq _ _ _ _ _ (by decide), if_pos rfl]; rfl,
   (presence_user_info_whole_channel_data envW (ascii "1.1") false [] (ascii "presence-r")
     (some (expected_digest envW.app_secret (ascii "presence-r") (ascii "1.1")
       (some (Json.toBytes (Json.obj [(ascii "user_id", Json.str (ascii "u1"))])))))
     (some (Json.obj [(ascii "user_id", Json.str (ascii "u1"))]))
     (by decide)
     (by rw [show (some (Json.obj [(ascii "user_id", Json.str (ascii "u1"))])).map Json.toBytes =
          some (Json.toBytes (Json.obj [(ascii "user_id", Json.str (ascii "u1"))])) from rfl,
        verify_some_eq _ _ _ _ _ (by decide), if_pos rfl]; rfl)
     rfl).1⟩

/-! ### Session cleanup lemmas -/

lemma handleSubscribe_fst (env : SessionEnv) (sock : List Nat) (domain : Bool)
    (channel : List Nat) (auth : Option (List Nat)) (data : Option Json)
    (sub : List (List Nat)) :
    (handleSubscribe env sock domain channel auth data sub).1 = sub ∨
    (channel ∉ sub ∧
      (handleSubscribe env sock domain channel auth data sub).1 = channel :: sub) := by
  unfold handleSubscribe
  dsimp only
  split
  · exact Or.inl rfl
  · split
    · split
      · exact Or.inl rfl
      · rename_i hmem
        exact Or.inr ⟨hmem, rfl⟩
    · exact Or.inl rfl

lemma runLoop_nodup (env : SessionEnv) (sock : List Nat) (domain : Bool)
    (msgs : List InMsg) : ∀ sub : List (List Nat), sub.Nodup →
    ((runLoop env sock domain msgs sub).1).Nodup := by
  induction msgs with
  | nil => exact fun _ h => h
  | cons m rest ih =>
    intro sub h
    cases m with
    | close => exact h
    | recvErr => exact h
    | other => exact ih sub h
    | text om =>
      cases om with
      | none => exact ih sub h
      | some cm =>
        have hstep : ((processMessage env sock domain cm sub).1).Nodup := by
          cases cm with
          | subscribe channel auth data =>
            have heq : (processMessage env sock domain
                (ClientMessage.subscribe channel auth data) sub).1 =
                (handleSubscribe env sock domain channel auth data sub).1 := rfl
            rcases handleSubscribe_fst env sock domain channel auth data sub with
              he | ⟨hn, he⟩
            · rw [heq, he]; exact h
            · rw [heq, he]; exact List.nodup_cons.mpr ⟨hn, h⟩
          | unsubscribe channel => exact h.erase channel
          | ping => exact h
        have hr : runLoop env sock domain (InMsg.text (some cm) :: rest) sub =
            ((runLoop env sock domain rest (processMessage env sock domain cm sub).1).1,
             (processMessage env sock domain cm sub).2 ++
               (runLoop env sock domain rest (processMessage env sock domain cm sub).1).2) :=
          rfl
        rw [hr]
        exact ih _ hstep

lemma countP_remove_map (c sock : List Nat) (l : List (List Nat)) :
    List.countP (isRemoveFor c sock) (l.map (fun x => Effect.removeMember x sock)) =
      List.countP (fun x => x == c) l := by
  induction l with
  | nil => rfl
  | cons x xs ih =>
    by_cases hx : x = c <;>
      simp [List.countP_cons, isRemoveFor, hx, ih]

lemma countP_eq_one_of_nodup_mem (c : List Nat) (l : List (List Nat))
    (h : l.Nodup) (hm : c ∈ l) : List.countP (fun x => x == c) l = 1 := by
  induction l with
  | nil => cases hm
  | cons x xs ih =>
    have hx : x ∉ xs := (List.nodup_cons.mp h).1
    rcases List.mem_cons.mp hm with rfl | hm2
    · have h0 : List.countP (fun y => y == c) xs = 0 := by
        rw [List.countP_eq_zero]
        intro y hy
        simp only [beq_iff_eq]
        intro hyc
        exact hx (hyc ▸ hy)
      simp [List.countP_cons, h0]
    · have hxc : (x == c) = false := by
        simp only [beq_eq_false_iff_ne, ne_eq]
        intro heq
        exact hx (heq ▸ hm2)
      rw [List.countP_cons]
      simp [hxc, ih (List.nodup_cons.mp h).2 hm2]

/-- C4: whenever the receive loop ends (stream exhaustion, a close frame, or
a receive error), the teardown invokes `remove_member(c, socket_id)` exactly
once for every presence channel `c` in the final subscribed set, and those
removals form the tail of the session trace, before the session returns. -/
theorem session_cleanup_removes_presence (env : SessionEnv) (sock : List Nat)
    (domain : Bool) (msgs : List InMsg) (c : List Nat)
    (hmem : c ∈ (runLoop env sock domain msgs []).1)
    (hp : ChannelType.from_name c = ChannelType.Presence) :
    List.countP (isRemoveFor c sock)
      (cleanupEffects sock domain (runLoop env sock domain msgs []).1) = 1 ∧
    ∃ pre, runSession env sock domain msgs =
      pre ++ cleanupEffects sock domain (runLoop env sock domain msgs []).1 := by
  have hnd : ((runLoop env sock domain msgs []).1).Nodup :=
    runLoop_nodup env sock domain msgs [] List.nodup_nil
  constructor
  · unfold cleanupEffects
    rw [List.countP_append, countP_remove_map]
    have h2 : List.countP (isRemoveFor c sock)
        (if domain then [Effect.auditDisconnectAll] else []) = 0 := by
      cases domain <;> rfl
    rw [h2]
    have hcf : c ∈ (runLoop env sock domain msgs []).1.filter
        (fun x => ChannelType.from_name x = ChannelType.Presence) := by
      rw [List.mem_filter]
      exact ⟨hmem, by simp [hp]⟩
    rw [countP_eq_one_of_nodup_mem c _ (hnd.filter _) hcf]
  · exact ⟨Effect.sendFrame (Frame.connectionEstablished sock) ::
      (runLoop env sock domain msgs []).2, rfl⟩

set_option maxRecDepth 1000000 in
/-- C4 witness: a session that subscribes to `presence-r` with a valid
signature and then hits end of stream removes that membership exactly once
at teardown. -/
theorem session_cleanup_removes_presence_witness :
    (ascii "presence-r" ∈ (runLoop envW (ascii "1.1") false
      [InMsg.text (some (ClientMessage.subscribe (ascii "presence-r")
        (some (expected_digest envW.app_secret (ascii "presence-r") (ascii "1.1") none))
        none))] []).1) ∧
    ChannelType.from_name (ascii "presence-r") = ChannelType.Presence ∧
    (List.countP (isRemoveFor (ascii "presence-r") (ascii "1.1"))
      (cleanupEffects (ascii "1.1") false (runLoop envW (ascii "1.1") false
        [InMsg.text (some (ClientMessage.subscribe (ascii "presence-r")
          (some (expected_digest envW.app_secret (ascii "presence-r") (ascii "1.1") none))
          none))] []).1) = 1 ∧
     ∃ pre, runSession envW (ascii "1.1") false
        [InMsg.text (some (ClientMessage.subscribe (ascii "presence-r")
          (some (expected_digest envW.app_secret (ascii "presence-r") (ascii "1.1") none))
          none))] =
      pre ++ cleanupEffects (ascii "1.1") false (runLoop envW (ascii "1.1") false
        [InMsg.text (some (ClientMessage.subscribe (ascii "presence-r")
          (some (expected_digest envW.app_secret (ascii "presence-r") (ascii "1.1") none))
          none))] []).1) :=
  ⟨by decide, by decide,
   session_cleanup_removes_presence envW (ascii "1.1") false
     [InMsg.text (some (ClientMessage.subscribe (ascii "presence-r")
       (some (expected_digest envW.app_secret (ascii "presence-r") (ascii "1.1") none))
       none))] (ascii "presence-r") (by decide) (by decide)⟩

end Notif
